import Mathlib

/-
  Shallow embedding of src/src/js/modules/scanner/barcode-scanner.js.

  The module-level mutable variables (activeStream, isScanning, lastResult,
  countResults, lastCodeFound) become the ScannerState record; the set of
  camera streams that have been acquired but whose tracks were never stopped
  is tracked as ghost instrumentation in World.liveStreams (the source holds
  these handles in the browser media layer).  DOM and feedback side effects
  become Action values; Date.now() timestamps are passed in explicitly as
  Int (JS number arithmetic on millisecond timestamps).  The external jsQR
  decode primitive can throw or return null or a candidate, modelled as
  Except String (Option Candidate); the fetch lookup outcome is modelled as
  LookupResult.
-/

namespace BarcodeScanner

/-- Configuration record, source lines 28-37. -/
structure Config where
  scanInterval : Int
  scanTimeout : Int
  autostart : Bool
  beepOnSuccess : Bool
  vibrateOnSuccess : Bool
  codeValidTimeout : Int
  cameraFacingMode : String
  selectByCode : Bool
deriving Repr, DecidableEq

/-- The default configuration values of source lines 28-37. -/
def defaultConfig : Config :=
  { scanInterval := 100
    scanTimeout := 5000
    autostart := true
    beepOnSuccess := true
    vibrateOnSuccess := true
    codeValidTimeout := 2000
    cameraFacingMode := "environment"
    selectByCode := true }

/-- The module-level control variables, source lines 21-25.  activeStream
holds the id of the stream currently referenced by the activeStream
variable (none when null). -/
structure ScannerState where
  activeStream : Option Nat
  isScanning : Bool
  lastResult : String
  countResults : Nat
  lastCodeFound : Int
deriving Repr, DecidableEq

/-- World: the scanner state plus ghost instrumentation of the media layer:
liveStreams lists ids of acquired streams whose tracks were never stopped,
nextStreamId is a fresh-id counter for getUserMedia grants. -/
structure World where
  state : ScannerState
  liveStreams : List Nat
  nextStreamId : Nat
deriving Repr, DecidableEq

/-- Initial values of the control variables at module load, source lines
21-25: activeStream = null, isScanning = false, lastResult = empty,
countResults = 0, lastCodeFound = Date.now() at load time. -/
def initialState (loadTime : Int) : ScannerState :=
  { activeStream := none
    isScanning := false
    lastResult := ""
    countResults := 0
    lastCodeFound := loadTime }

/-- Initial world at module load: no streams acquired yet. -/
def initialWorld (loadTime : Int) : World :=
  { state := initialState loadTime, liveStreams := [], nextStreamId := 0 }

/-- Opaque product record returned by the lookup service. -/
structure Product where
  productId : Nat
deriving Repr, DecidableEq

/-- A point of the code outline geometry returned by jsQR. -/
structure Point where
  x : Int
  y : Int
deriving Repr, DecidableEq

/-- The bounding geometry of a decoded code, source lines 226-236. -/
structure CodeLocation where
  topLeftCorner : Point
  topRightCorner : Point
  bottomRightCorner : Point
  bottomLeftCorner : Point
deriving Repr, DecidableEq

/-- A decode candidate produced by the jsQR primitive: decoded string plus
outline geometry. -/
structure Candidate where
  data : String
  location : CodeLocation
deriving Repr, DecidableEq

/-- Observable side effects of the module: feedback, DOM updates, the
downstream lookup dispatch and the presentation-layer calls. -/
inductive Action where
  | beep
  | vibrate
  | showCode (code : String)
  | lookupDispatch (code : String)
  | drawOutline (location : CodeLocation)
  | showSearching
  | request (code : String)
  | displayProduct (p : Product)
  | selectProduct (p : Product)
  | showNotFound (code : String)
  | notifyNotFound (code : String)
  | showStartError (msg : String)
  | logMessage (msg : String)
deriving Repr, DecidableEq

/-- The confirmed events carried by an action list: each lookupDispatch is
the fire-and-forget call of fetchProductByBarcode made on acceptance
(source line 264), i.e. one downstream dispatch per ConfirmedEvent. -/
def confirmedOf (acts : List Action) : List String :=
  acts.filterMap fun a =>
    match a with
    | Action.lookupDispatch code => some code
    | _ => none

/-- Number of lookup requests actually issued to the fetch API inside one
fetchProductByBarcode call (source line 281). -/
def requestCount (acts : List Action) : Nat :=
  (acts.filterMap fun a =>
    match a with
    | Action.request code => some code
    | _ => none).length

/-- processCode, source lines 242-268: accept when the code differs from
lastResult or more than codeValidTimeout ms elapsed since lastCodeFound;
on accept update lastResult and lastCodeFound, fire feedback, show the
code and dispatch the product lookup; otherwise do nothing. -/
def processCode (cfg : Config) (s : ScannerState) (code : String) (now : Int) :
    ScannerState × List Action :=
  if code ≠ s.lastResult ∨ now - s.lastCodeFound > cfg.codeValidTimeout then
    ({ s with lastResult := code, lastCodeFound := now },
      (if cfg.beepOnSuccess then [Action.beep] else []) ++
      (if cfg.vibrateOnSuccess then [Action.vibrate] else []) ++
      [Action.showCode code, Action.lookupDispatch code])
  else
    (s, [])

/-- decodeBarcode, source lines 203-221: run the jsQR primitive on the
frame; a thrown error is caught and swallowed (only console.error), a null
result does nothing, a candidate has its outline drawn and is handed to
processCode. -/
def decodeBarcode (cfg : Config) (s : ScannerState)
    (decodeResult : Except String (Option Candidate)) (now : Int) :
    ScannerState × List Action :=
  match decodeResult with
  | Except.error _ => (s, [])
  | Except.ok none => (s, [])
  | Except.ok (some c) =>
      let r := processCode cfg s c.data now
      (r.1, Action.drawOutline c.location :: r.2)

/-- stop, source lines 138-153: clear isScanning, stop all tracks of
activeStream (removing that one stream from the live set) and null it. -/
def stop (w : World) : World :=
  { state := { w.state with isScanning := false, activeStream := none }
    liveStreams :=
      match w.state.activeStream with
      | some sid => w.liveStreams.erase sid
      | none => w.liveStreams
    nextStreamId := w.nextStreamId }

/-- Result of a start() call: the new world, whether the tick loop was
scheduled (requestAnimationFrame on line 121), what error if any escaped
to the caller, and the DOM messages produced. -/
structure StartResult where
  world : World
  loopStarted : Bool
  raisedToCaller : Option String
  actions : List Action
deriving Repr, DecidableEq

/-- start, source lines 97-133: unconditionally set isScanning := true and
lastResult := empty, then try to acquire the camera.  On success a fresh
stream is stored into activeStream (the previous value is overwritten
without stopping its tracks) and the tick loop is scheduled.  On failure
the catch block swallows the error, writes an error message to the DOM and
returns; isScanning is left true and no loop is scheduled.  acquireOk
models whether getUserMedia resolves. -/
def start (w : World) (acquireOk : Bool) : StartResult :=
  let s1 := { w.state with isScanning := true, lastResult := "" }
  if acquireOk then
    let sid := w.nextStreamId
    { world :=
        { state := { s1 with activeStream := some sid }
          liveStreams := w.liveStreams ++ [sid]
          nextStreamId := sid + 1 }
      loopStarted := true
      raisedToCaller := none
      actions := [Action.logMessage "Scanner iniciado com sucesso"] }
  else
    { world := { w with state := s1 }
      loopStarted := false
      raisedToCaller := none
      actions := [Action.showStartError "Erro ao acessar camera"] }

/-- Inputs of one tick: the current Date.now(), whether the video element
has enough data, and what the decode primitive would yield on this frame. -/
structure TickInput where
  now : Int
  frameReady : Bool
  decodeResult : Except String (Option Candidate)

/-- Result of one tick: the new world, the side effects of this tick, and
whether the next tick was scheduled (the setTimeout at line 195). -/
structure TickResult where
  world : World
  actions : List Action
  rescheduled : Bool

/-- tick, source lines 158-198: return at once when not scanning; stop and
return when the idle watchdog fires (scanTimeout positive and more than
scanTimeout ms since lastCodeFound); otherwise, when a frame is ready,
attempt a decode on every 10th frame and increment countResults; finally
reschedule the next tick. -/
def tick (cfg : Config) (w : World) (inp : TickInput) : TickResult :=
  if !w.state.isScanning then
    { world := w, actions := [], rescheduled := false }
  else if cfg.scanTimeout > 0 ∧ inp.now - w.state.lastCodeFound > cfg.scanTimeout then
    { world := stop w
      actions := [Action.logMessage "Scanner timeout - desligando"]
      rescheduled := false }
  else if inp.frameReady then
    let r :=
      if w.state.countResults % 10 = 0 then
        decodeBarcode cfg w.state inp.decodeResult inp.now
      else
        (w.state, [])
    { world := { w with state := { r.1 with countResults := r.1.countResults + 1 } }
      actions := r.2
      rescheduled := true }
  else
    { world := w, actions := [], rescheduled := true }

/-- Outcome of the lookup fetch, source lines 281-287: an ok response with
a product, a non-ok HTTP status (thrown at line 284), or a network or
parse failure of the fetch itself. -/
inductive LookupResult where
  | success (product : Product)
  | httpError (status : Int)
  | networkError
deriving Repr, DecidableEq

/-- Whether the lookup outcome is the success path. -/
def LookupResult.isSuccess : LookupResult → Bool
  | LookupResult.success _ => true
  | _ => false

/-- fetchProductByBarcode, source lines 274-311: show the searching
message, issue one fetch request; on success display the product and,
when configured and the global hook exists, select it; on any failure
(non-ok status or thrown fetch) the catch block shows the not-found
message for the barcode, notifies when the app hook exists, and returns
null.  The scanner control state is never touched. -/
def fetchProductByBarcode (cfg : Config) (s : ScannerState) (barcode : String)
    (res : LookupResult) (selectHookAvailable : Bool) (notifyAvailable : Bool) :
    ScannerState × List Action × Option Product :=
  match res with
  | LookupResult.success p =>
      (s,
       [Action.showSearching, Action.request barcode, Action.displayProduct p] ++
         (if cfg.selectByCode && selectHookAvailable then [Action.selectProduct p] else []),
       some p)
  | LookupResult.httpError _ =>
      (s,
       [Action.showSearching, Action.request barcode, Action.showNotFound barcode] ++
         (if notifyAvailable then [Action.notifyNotFound barcode] else []),
       none)
  | LookupResult.networkError =>
      (s,
       [Action.showSearching, Action.request barcode, Action.showNotFound barcode] ++
         (if notifyAvailable then [Action.notifyNotFound barcode] else []),
       none)

/-- Fold processCode over a stream of timed decode candidates, collecting
the timed confirmed events, as the scan loop does when those candidates
reach processCode on successive decode ticks. -/
def runCandidates (cfg : Config) (s : ScannerState) :
    List (Int × String) → ScannerState × List (Int × String)
  | [] => (s, [])
  | (t, v) :: rest =>
      let r := processCode cfg s v t
      let r2 := runCandidates cfg r.1 rest
      (r2.1, (confirmedOf r.2).map (fun c => (t, c)) ++ r2.2)

/-- getLastCode accessor of the public API, source line 354. -/
def getLastCode (w : World) : String := w.state.lastResult

/-- isActive accessor of the public API, source line 355. -/
def isActive (w : World) : Bool := w.state.isScanning

/-- Zero point used by concrete fixtures. -/
def pointZero : Point := { x := 0, y := 0 }

/-- Degenerate outline used by concrete fixtures. -/
def locationZero : CodeLocation :=
  { topLeftCorner := pointZero, topRightCorner := pointZero,
    bottomRightCorner := pointZero, bottomLeftCorner := pointZero }

/-- Concrete candidate with value A, used by concrete fixtures. -/
def candA : Candidate := { data := "A", location := locationZero }

/-- The world right after one successful start from the freshly loaded
module at time 0. -/
def wRun : World := (start (initialWorld 0) true).world

/-! Helper lemmas shared by the claim theorems. -/

/-- The confirmed events of the acceptance action list are exactly the
accepted code, whatever the feedback toggles. -/
theorem confirmedOf_acceptActions (b vb : Bool) (v : String) :
    confirmedOf ((if b then [Action.beep] else []) ++
      (if vb then [Action.vibrate] else []) ++
      [Action.showCode v, Action.lookupDispatch v]) = [v] := by
  cases b <;> cases vb <;> rfl

/-- processCode never touches isScanning. -/
theorem processCode_isScanning (cfg : Config) (s : ScannerState) (v : String) (now : Int) :
    (processCode cfg s v now).1.isScanning = s.isScanning := by
  unfold processCode
  split_ifs <;> rfl

/-- decodeBarcode never touches isScanning. -/
theorem decodeBarcode_isScanning (cfg : Config) (s : ScannerState)
    (r : Except String (Option Candidate)) (now : Int) :
    (decodeBarcode cfg s r now).1.isScanning = s.isScanning := by
  cases r with
  | error e => rfl
  | ok o =>
      cases o with
      | none => rfl
      | some c => simpa [decodeBarcode] using processCode_isScanning cfg s c.data now

/-- C1: whenever a decode candidate with value v reaches the debounce
filter while running, it is accepted exactly when v differs from
lastResult or more than codeValidTimeout ms have passed since
lastCodeFound; on acceptance lastResult := v, lastCodeFound := now and
exactly one confirmed event (one lookup dispatch) is emitted; on
suppression nothing is emitted and the state is unchanged; a value
different from lastResult is always accepted; and the stream A,A,A at
t = 0, 100, 2100 with suppression window 2000 confirms at t = 0 and
t = 2100 only. -/
theorem processCode_debounce_spec :
    (∀ cfg : Config, ∀ s : ScannerState, ∀ v : String, ∀ now : Int,
        confirmedOf (processCode cfg s v now).2 ≠ [] ↔
          (v ≠ s.lastResult ∨ now - s.lastCodeFound > cfg.codeValidTimeout)) ∧
    (∀ cfg : Config, ∀ s : ScannerState, ∀ v : String, ∀ now : Int,
        (v ≠ s.lastResult ∨ now - s.lastCodeFound > cfg.codeValidTimeout) →
          (processCode cfg s v now).1.lastResult = v ∧
          (processCode cfg s v now).1.lastCodeFound = now ∧
          confirmedOf (processCode cfg s v now).2 = [v]) ∧
    (∀ cfg : Config, ∀ s : ScannerState, ∀ v : String, ∀ now : Int,
        ¬(v ≠ s.lastResult ∨ now - s.lastCodeFound > cfg.codeValidTimeout) →
          processCode cfg s v now = (s, [])) ∧
    (∀ cfg : Config, ∀ s : ScannerState, ∀ v : String, ∀ now : Int,
        v ≠ s.lastResult → confirmedOf (processCode cfg s v now).2 = [v]) ∧
    (runCandidates defaultConfig (initialState 0)
        [(0, "A"), (100, "A"), (2100, "A")]).2 = [(0, "A"), (2100, "A")] := by
  refine ⟨?_, ?_, ?_, ?_, ?_⟩
  · intro cfg s v now
    by_cases h : v ≠ s.lastResult ∨ now - s.lastCodeFound > cfg.codeValidTimeout
    · have hc : confirmedOf (processCode cfg s v now).2 = [v] := by
        unfold processCode
        rw [if_pos h]
        exact confirmedOf_acceptActions cfg.beepOnSuccess cfg.vibrateOnSuccess v
      rw [hc]
      simp [h]
    · have hc : processCode cfg s v now = (s, []) := by
        unfold processCode
        rw [if_neg h]
      rw [hc]
      simpa [confirmedOf] using h
  · intro cfg s v now h
    unfold processCode
    rw [if_pos h]
    exact ⟨rfl, rfl, confirmedOf_acceptActions cfg.beepOnSuccess cfg.vibrateOnSuccess v⟩
  · intro cfg s v now h
    unfold processCode
    rw [if_neg h]
  · intro cfg s v now h
    unfold processCode
    rw [if_pos (Or.inl h)]
    exact confirmedOf_acceptActions cfg.beepOnSuccess cfg.vibrateOnSuccess v
  · decide

/-- Witness for C1: the first candidate A against the freshly reset state
is accepted and dispatched exactly once. -/
theorem processCode_debounce_spec_witness :
    confirmedOf (processCode defaultConfig (initialState 0) "A" 0).2 = ["A"] :=
  processCode_debounce_spec.2.2.2.1 defaultConfig (initialState 0) "A" 0 (by decide)

/-- C2: the code violates the claim.  start has no re-entrancy guard:
two successive successful start calls acquire two streams and leave both
live, the first one unreachable because activeStream was overwritten, so
even a subsequent stop releases only the second stream and the first
stays live forever. -/
theorem start_twice_leaves_two_live_sessions :
    ((start (start (initialWorld 0) true).world true).world.liveStreams = [0, 1]) ∧
    ((start (start (initialWorld 0) true).world true).world.liveStreams.length = 2) ∧
    ((start (start (initialWorld 0) true).world true).world.state.activeStream = some 1) ∧
    ((stop (start (start (initialWorld 0) true).world true).world).liveStreams = [0]) := by
  decide

/-- C3 counterexample: when acquisition fails, start raises nothing to
its caller (the catch block swallows the error) and the scanner does not
remain stopped: isScanning was set to true before the attempt and is
never reset, so isActive reports true. -/
theorem start_failure_swallowed_counterexample :
    (start (initialWorld 0) false).raisedToCaller = none ∧
    isActive (start (initialWorld 0) false).world = true := by
  decide

/-- C3 amended: when the capture source cannot be opened, start swallows
the acquisition error (nothing reaches the caller; an error message
action is produced for the presentation layer), no scan loop begins, no
stream is acquired, but isScanning is left true, so isActive reports
true even though no loop runs. -/
theorem start_failure_behaviour (w : World) :
    (start w false).raisedToCaller = none ∧
    (start w false).loopStarted = false ∧
    (start w false).world.state.isScanning = true ∧
    (start w false).world.state.activeStream = w.state.activeStream ∧
    (start w false).world.liveStreams = w.liveStreams ∧
    (start w false).actions = [Action.showStartError "Erro ao acessar camera"] := by
  refine ⟨rfl, rfl, rfl, rfl, rfl, rfl⟩

/-- C4 counterexample: a successful start does not reset lastCodeFound:
starting from a world whose lastCodeFound is 12345, it is still 12345
afterwards, not the start time (start never reads the clock), while
lastResult is reset to the empty string. -/
theorem start_keeps_stale_lastCodeFound_counterexample :
    (start
        { state :=
            { activeStream := none, isScanning := false, lastResult := "X",
              countResults := 0, lastCodeFound := 12345 }
          liveStreams := [], nextStreamId := 0 } true).world.state.lastCodeFound = 12345 := by
  decide

/-- C4 amended: on every successful start, lastResult is reset to the
empty string, isScanning is set to true and the scan loop begins, but
lastCodeFound keeps whatever value it had before the call. -/
theorem start_success_behaviour (w : World) :
    (start w true).world.state.lastResult = "" ∧
    (start w true).world.state.isScanning = true ∧
    (start w true).loopStarted = true ∧
    (start w true).world.state.lastCodeFound = w.state.lastCodeFound ∧
    (start w true).world.state.activeStream = some w.nextStreamId ∧
    (start w true).world.liveStreams = w.liveStreams ++ [w.nextStreamId] := by
  refine ⟨rfl, rfl, rfl, rfl, rfl, rfl⟩

/-- C5 counterexample: a suppressed duplicate does not refresh the
activity timestamp: with lastResult A and lastCodeFound 0, presenting A
again at t = 100 under suppression window 2000 leaves lastCodeFound at
0, not 100. -/
theorem suppressed_candidate_keeps_lastCodeFound_counterexample :
    (processCode defaultConfig
        { activeStream := some 0, isScanning := true, lastResult := "A",
          countResults := 1, lastCodeFound := 0 } "A" 100).1.lastCodeFound = 0 := by
  decide

/-- C5 amended: a suppressed candidate leaves the state entirely
unchanged, so lastCodeFound is not refreshed; and a sampled frame with
no candidate never changes lastCodeFound either: the code updates
lastCodeFound only when a candidate is accepted. -/
theorem suppression_refreshes_nothing :
    (∀ cfg : Config, ∀ s : ScannerState, ∀ v : String, ∀ now : Int,
        ¬(v ≠ s.lastResult ∨ now - s.lastCodeFound > cfg.codeValidTimeout) →
          processCode cfg s v now = (s, [])) ∧
    (∀ cfg : Config, ∀ w : World, ∀ now : Int, ∀ fr : Bool,
        (tick cfg w { now := now, frameReady := fr, decodeResult := Except.ok none }
          ).world.state.lastCodeFound = w.state.lastCodeFound) := by
  constructor
  · intro cfg s v now h
    unfold processCode
    rw [if_neg h]
  · intro cfg w now fr
    unfold tick
    split_ifs <;> rfl

/-- Witness for C5: the suppressed duplicate at t = 100 leaves the state
and emission untouched. -/
theorem suppression_refreshes_nothing_witness :
    processCode defaultConfig
        { activeStream := some 0, isScanning := true, lastResult := "A",
          countResults := 1, lastCodeFound := 0 } "A" 100 =
      ({ activeStream := some 0, isScanning := true, lastResult := "A",
          countResults := 1, lastCodeFound := 0 }, []) :=
  suppression_refreshes_nothing.1 defaultConfig
    { activeStream := some 0, isScanning := true, lastResult := "A",
      countResults := 1, lastCodeFound := 0 } "A" 100 (by decide)

/-- C6: on a tick of the running loop, when scanTimeout is positive and
more than scanTimeout ms have passed since lastCodeFound, the tick calls
stop autonomously (the scanner becomes stopped, the stream is released,
no reschedule, nothing confirmed); when scanTimeout is 0 the watchdog
never fires and the tick leaves the scanner running. -/
theorem tick_idle_watchdog (cfg : Config) (w : World) (inp : TickInput) :
    (w.state.isScanning = true → cfg.scanTimeout > 0 →
        inp.now - w.state.lastCodeFound > cfg.scanTimeout →
        (tick cfg w inp).world = stop w ∧
        (tick cfg w inp).world.state.isScanning = false ∧
        (tick cfg w inp).rescheduled = false ∧
        confirmedOf (tick cfg w inp).actions = []) ∧
    (w.state.isScanning = true → cfg.scanTimeout = 0 →
        (tick cfg w inp).world.state.isScanning = true) := by
  constructor
  · intro h1 h2 h3
    unfold tick
    split_ifs with ha hb hc hd
    · exact absurd h1 (by simpa using ha)
    · exact ⟨rfl, rfl, rfl, rfl⟩
    · exact absurd ⟨h2, h3⟩ hb
    · exact absurd ⟨h2, h3⟩ hb
    · exact absurd ⟨h2, h3⟩ hb
  · intro h1 h2
    unfold tick
    split_ifs with ha hb hc hd
    · exact h1
    · exact absurd hb (by simp [h2])
    · exact (decodeBarcode_isScanning cfg w.state inp.decodeResult inp.now).trans h1
    · exact h1
    · exact h1

/-- Witness for C6: from the running world with lastCodeFound 0, a tick
at t = 6000 under the default 5000 ms timeout stops the scanner and does
not reschedule. -/
theorem tick_idle_watchdog_witness :
    (tick defaultConfig wRun
        { now := 6000, frameReady := false, decodeResult := Except.ok none }
      ).world.state.isScanning = false ∧
    (tick defaultConfig wRun
        { now := 6000, frameReady := false, decodeResult := Except.ok none }
      ).rescheduled = false :=
  ((tick_idle_watchdog defaultConfig wRun
      { now := 6000, frameReady := false, decodeResult := Except.ok none }).1
      (by decide) (by decide) (by decide)).2.imp id And.left

/-- C7: stop clears isScanning, and every tick that runs with isScanning
cleared returns immediately: the world is unchanged, no actions at all
(so no decode, no debounce decision, no dispatch, whatever candidate the
frame would have yielded) and no further tick is scheduled. -/
theorem stop_halts_ticks (cfg : Config) (w : World) (inp : TickInput) :
    (stop w).state.isScanning = false ∧
    (w.state.isScanning = false →
        tick cfg w inp = { world := w, actions := [], rescheduled := false }) := by
  constructor
  · rfl
  · intro h
    unfold tick
    rw [h]
    rfl

/-- Witness for C7: after module load (stopped scanner), a tick whose
frame would decode the qualifying candidate A changes nothing and emits
nothing. -/
theorem stop_halts_ticks_witness :
    tick defaultConfig (initialWorld 0)
        { now := 0, frameReady := true, decodeResult := Except.ok (some candA) } =
      { world := initialWorld 0, actions := [], rescheduled := false } :=
  (stop_halts_ticks defaultConfig (initialWorld 0)
      { now := 0, frameReady := true, decodeResult := Except.ok (some candA) }).2 rfl

/-- C8: for every confirmed value whose lookup returns a non-success
outcome (non-ok status or transport error), fetchProductByBarcode shows
the not-found state for that value, leaves the scanner state untouched
(isScanning unchanged), issues exactly one request (no automatic retry)
and returns null. -/
theorem lookup_failure_handling (cfg : Config) (s : ScannerState) (barcode : String)
    (res : LookupResult) (sel : Bool) (noti : Bool) :
    res.isSuccess = false →
      (fetchProductByBarcode cfg s barcode res sel noti).1 = s ∧
      Action.showNotFound barcode ∈ (fetchProductByBarcode cfg s barcode res sel noti).2.1 ∧
      requestCount (fetchProductByBarcode cfg s barcode res sel noti).2.1 = 1 ∧
      (fetchProductByBarcode cfg s barcode res sel noti).2.2 = none := by
  intro h
  cases res with
  | success p => exact absurd h (by simp [LookupResult.isSuccess])
  | httpError st =>
      cases noti <;> exact ⟨rfl, by simp [fetchProductByBarcode], rfl, rfl⟩
  | networkError =>
      cases noti <;> exact ⟨rfl, by simp [fetchProductByBarcode], rfl, rfl⟩

/-- Witness for C8: a not-found lookup for the confirmed value 123 shows
the not-found state and leaves the scanner state unchanged. -/
theorem lookup_failure_handling_witness :
    (fetchProductByBarcode defaultConfig wRun.state "123"
        (LookupResult.httpError 404) true true).1 = wRun.state ∧
    Action.showNotFound "123" ∈
      (fetchProductByBarcode defaultConfig wRun.state "123"
        (LookupResult.httpError 404) true true).2.1 :=
  ((lookup_failure_handling defaultConfig wRun.state "123"
      (LookupResult.httpError 404) true true) rfl).imp id And.left

/-- C9: the decode step never raises to its caller: a failure of the
decode primitive is swallowed and behaves exactly like a frame with no
candidate, both in decodeBarcode itself and through a whole tick, so no
decode failure terminates or escapes the scan loop. -/
theorem decode_failure_swallowed (cfg : Config) (s : ScannerState) (w : World)
    (now : Int) (fr : Bool) (e : String) :
    decodeBarcode cfg s (Except.error e) now = (s, []) ∧
    decodeBarcode cfg s (Except.ok none) now = (s, []) ∧
    tick cfg w { now := now, frameReady := fr, decodeResult := Except.error e } =
      tick cfg w { now := now, frameReady := fr, decodeResult := Except.ok none } :=
  ⟨rfl, rfl, rfl⟩

/-- C10: getLastCode is the empty string at module load and again right
after every start call; an accepted candidate makes it that candidate's
value; a suppressed candidate leaves it unchanged. -/
theorem getLastCode_follows_confirmations :
    (∀ t : Int, getLastCode (initialWorld t) = "") ∧
    (∀ w : World, ∀ ok : Bool, getLastCode (start w ok).world = "") ∧
    (∀ cfg : Config, ∀ s : ScannerState, ∀ v : String, ∀ now : Int,
        (v ≠ s.lastResult ∨ now - s.lastCodeFound > cfg.codeValidTimeout) →
          (processCode cfg s v now).1.lastResult = v) ∧
    (∀ cfg : Config, ∀ s : ScannerState, ∀ v : String, ∀ now : Int,
        ¬(v ≠ s.lastResult ∨ now - s.lastCodeFound > cfg.codeValidTimeout) →
          (processCode cfg s v now).1.lastResult = s.lastResult) := by
  refine ⟨fun t => rfl, ?_, ?_, ?_⟩
  · intro w ok
    cases ok <;> rfl
  · intro cfg s v now h
    unfold processCode
    rw [if_pos h]
  · intro cfg s v now h
    unfold processCode
    rw [if_neg h]

/-- Witness for C10: accepting B at t = 7 from the fresh state makes
getLastCode return B. -/
theorem getLastCode_follows_confirmations_witness :
    (processCode defaultConfig (initialState 0) "B" 7).1.lastResult = "B" :=
  getLastCode_follows_confirmations.2.2.1 defaultConfig (initialState 0) "B" 7
    (Or.inl (by decide))

end BarcodeScanner
